import Mathlib

/-!
Verification development for the VoiceAI assistant repository.

The development shallowly embeds the command-processing core of the
repository: the skill matcher and the individual skills
(`src/assistant.py`), the orchestrator's `_process_command` cycle, and the
remote model client (`src/mistral_client.py`).  Pure Python code is
translated to Lean functions; the effectful collaborators (wall clock,
random number generator, the HTTP transport of the model and weather
services, and the Python `eval` interpreter invoked by the calculation
skill) are supplied as explicit oracle values, so every embedded function
is deterministic and executable.
-/

/-! ### Python string primitives

The repository manipulates Python `str` values with `lower`, `strip`,
`replace`, slicing, and the `in` substring test.  The helpers below give
those operations executable Lean counterparts on code-point lists.
`lowerChar`/`upperChar` cover the ASCII and Cyrillic alphabets, which are
the only alphabets appearing in the program's keyword sets and messages. -/

def lowerChar (c : Char) : Char :=
  if 'A' ≤ c ∧ c ≤ 'Z' then Char.ofNat (c.toNat + 32)
  else if 0x410 ≤ c.toNat ∧ c.toNat ≤ 0x42F then Char.ofNat (c.toNat + 32)
  else if c.toNat = 0x401 then Char.ofNat 0x451
  else c

def upperChar (c : Char) : Char :=
  if 'a' ≤ c ∧ c ≤ 'z' then Char.ofNat (c.toNat - 32)
  else if 0x430 ≤ c.toNat ∧ c.toNat ≤ 0x44F then Char.ofNat (c.toNat - 32)
  else if c.toNat = 0x451 then Char.ofNat 0x401
  else c

/-- Python `text.lower()`. -/
def pyLower (s : String) : String :=
  String.mk (s.toList.map lowerChar)

/-- Worker for `pyIn`: does `needle` occur contiguously inside `hay`? -/
def listInfix (needle : List Char) : List Char → Bool
  | [] => needle.isEmpty
  | c :: rest => needle.isPrefixOf (c :: rest) || listInfix needle rest

/-- Python `needle in hay` substring membership on strings. -/
def pyIn (needle hay : String) : Bool :=
  listInfix needle.toList hay.toList

/-- Characters removed by Python `str.strip()` with no argument. -/
def pySpace (c : Char) : Bool :=
  c = ' ' || c = '\t' || c = '\n' || c = '\r' || c = '\x0b' || c = '\x0c'

/-- Python `s.strip()`. -/
def pyStrip (s : String) : String :=
  String.mk (((s.toList.dropWhile pySpace).reverse.dropWhile pySpace).reverse)

/-- Python `s[:n]` on strings (first `n` code points). -/
def pySlice (s : String) (n : Nat) : String :=
  String.mk (s.toList.take n)

/-- Replacement worker for `pyReplace`, structurally recursive on a fuel
argument that starts at the length of the subject list (each step consumes
at least one character, so the fuel is sufficient). -/
def replaceAux (pat rep : List Char) : Nat → List Char → List Char
  | _, [] => []
  | 0, s => s
  | fuel + 1, c :: rest =>
    if pat.isPrefixOf (c :: rest) then
      rep ++ replaceAux pat rep fuel (rest.drop (pat.length - 1))
    else
      c :: replaceAux pat rep fuel rest

/-- Python `s.replace(pat, rep)`: non-overlapping left-to-right replacement
of every occurrence.  The program only ever calls it with a non-empty
pattern, so the empty-pattern case is the identity. -/
def pyReplace (s pat rep : String) : String :=
  if pat.isEmpty then s
  else String.mk (replaceAux pat.toList rep.toList s.toList.length s.toList)

/-- Python `l[-n:]` for `n > 0` (the program uses `n = 10` and `n = 2`). -/
def lastN (n : Nat) (l : List α) : List α :=
  l.drop (l.length - n)

/-- Python `l[-k:]` including the `k = 0` edge case, where the slice is the
whole list. -/
def pySliceLast (l : List α) (k : Nat) : List α :=
  if k = 0 then l else l.drop (l.length - k)

/-- Python `random.choice(l)` with the random draw supplied as an oracle
index reduced modulo the length of the list. -/
def pyChoice (r : Nat) (l : List String) : String :=
  l.getD (r % l.length) ""

/-- Python `random.randint(lo, hi)` with the draw supplied as an oracle
index reduced into the inclusive range. -/
def pyRandint (r : Nat) (lo hi : Int) : Int :=
  lo + Int.ofNat (r % (hi - lo + 1).toNat)

/-- Python `str.capitalize()`: first character upper-cased, the rest
lower-cased. -/
def pyCapitalize (s : String) : String :=
  match s.toList with
  | [] => ""
  | c :: rest => String.mk (upperChar c :: rest.map lowerChar)

/-- Python `sep.join(parts)`. -/
def joinSep (sep : String) : List String → String
  | [] => ""
  | [x] => x
  | x :: xs => x ++ sep ++ joinSep sep xs

/-! ### Python dicts used as ordered association lists

CPython dicts preserve insertion order: assignment to an existing key keeps
its position, assignment to a fresh key appends, and `next(iter(d))`
returns the first inserted key.  The model client's response cache and the
metadata dictionaries rely on exactly this behaviour. -/

/-- Lookup of a key in an insertion-ordered dict. -/
def assocLookup (k : String) : List (String × β) → Option β
  | [] => none
  | (k2, v) :: rest => if k2 = k then some v else assocLookup k rest

/-- Python `d[k] = v` on an insertion-ordered dict. -/
def assocSet (d : List (String × β)) (k : String) (v : β) : List (String × β) :=
  match d with
  | [] => [(k, v)]
  | (k2, v2) :: rest => if k2 = k then (k, v) :: rest else (k2, v2) :: assocSet rest k v

/-! ### Data model -/

/-- JSON-like values stored in the metadata dictionaries. -/
inductive MetaVal where
  | str (s : String)
  | bool (b : Bool)
  | int (n : Int)
  | dict (d : List (String × MetaVal))

/-- A Python dict from string keys to JSON-like values, insertion ordered. -/
abbrev Metadata := List (String × MetaVal)

/-- `ConversationMessage` dataclass (`src/mistral_client.py`). -/
structure ConversationMessage where
  role : String
  content : String
  timestamp : String
deriving DecidableEq, Repr

/-- `SkillResult` dataclass (`src/assistant.py`). -/
structure SkillResult where
  success : Bool
  response : String
  data : Metadata
  should_continue : Bool

/-- The orchestrator's `self.context` dict.  The dict always carries the
`user_name`, `location`, `interests` and `last_active` keys; a `time` key
may be added later through `update_context`, hence the `Option`. -/
structure AssistantContext where
  user_name : String := "Пользователь"
  location : String := "Москва"
  interests : List String := []
  last_active : String := ""
  time : Option String := none

/-- Python truthiness of an optional string value fetched with `dict.get`. -/
def truthyOpt : Option String → Bool
  | none => false
  | some s => s != ""

/-- The single message dicts `{"role": ..., "content": ...}` assembled for
the chat-completions request. -/
structure ChatMsg where
  role : String
  content : String
deriving DecidableEq, Repr

/-- Outcome of the `requests.post` call to the chat-completions endpoint,
supplied as an oracle: an HTTP status with the relevant fields of the
parsed JSON body (the choices' message contents, `usage.total_tokens`, and
the optional `model` / `finish_reason` fields), or one of the exception
classes the client catches. -/
inductive NetOutcome where
  | status (code : Nat) (choices : List String) (totalTokens : Nat)
      (modelName : Option String) (finishReason : Option String)
  | timeout
  | connError
  | exn (msg : String)

/-- Outcome of the Python `eval` call inside the calculation skill,
supplied as an oracle: a successfully evaluated value already rendered the
way the f-string would render it, a `ZeroDivisionError`, or any other
exception. -/
inductive EvalOutcome where
  | ok (rendered : String)
  | zeroDiv
  | err

/-- Fields of the weather service's JSON body used by the weather skill,
already rendered as the f-string would render them. -/
structure WeatherFields where
  description : String := ""
  temp : String := ""
  feelsLike : String := ""
  humidity : String := ""

/-- All effectful collaborators of one command-processing cycle: the wall
clock readings, the random draws, the weather HTTP transport (`.error`
standing for a raised exception), the `eval` interpreter, and the model
client HTTP transport. -/
structure Oracle where
  tsUser : String := ""
  tsAssistant : String := ""
  timeHMS : String := ""
  dateLong : String := ""
  weekday : Nat := 0
  isoNow : String := ""
  timeShort : String := ""
  weatherRand : Nat := 0
  weatherCondRand : Nat := 0
  weatherNet : Except Unit (Nat × WeatherFields) := .error ()
  jokeRand : Nat := 0
  fallbackRand : Nat := 0
  evalRes : EvalOutcome := .err
  net : NetOutcome := .timeout

/-- Configuration values the embedded core reads: the orchestrator's
history bound (`self.max_history`, set to 100 in `__init__`) and the
weather skill's API key from `config["skills"]["weather"]["api_key"]`. -/
structure AssistantCfg where
  maxHistory : Nat := 100
  weatherApiKey : String := ""

/-! ### Remote model client (`src/mistral_client.py`) -/

/-- State of a `MistralClient` instance. -/
structure MistralClient where
  api_key : String
  model : String
  available : Bool
  response_cache : List (String × String)
  cache_size : Nat
  requests : Nat
  tokens_used : Nat
  errors : Nat
deriving DecidableEq, Repr

/-- The placeholder credential strings rejected by `MistralClient.__init__`. -/
def placeholder_keys : List String :=
  ["your_openrouter_api_key", "sk-or-v1-...", "sk-or-v1-", ""]

/-- `MistralClient.__init__`: the availability gate plus the empty cache and
zeroed statistics. -/
def mistral_init (api_key model : String) : MistralClient :=
  let bad := api_key == "" || placeholder_keys.contains (pyStrip api_key)
      || decide ((pyStrip api_key).length < 10)
  { api_key := api_key, model := model, available := !bad,
    response_cache := [], cache_size := 100,
    requests := 0, tokens_used := 0, errors := 0 }

/-- `MistralClient.is_available`. -/
def is_available (st : MistralClient) : Bool :=
  st.available

/-- The literal persona prompt assigned to `prompt` in
`_create_system_prompt`, including the indentation and trailing spaces of
the Python triple-quoted literal. -/
def base_system_prompt : String :=
  "Ты - полезный голосовой ассистент по имени Алекса. \n" ++
  "        Ты помогаешь пользователю с различными задачами: отвечаешь на вопросы, \n" ++
  "        даешь советы, помогаешь с работой и развлекаешь.\n\n" ++
  "        Твои характеристики:\n" ++
  "        - Имя: Алекса\n" ++
  "        - Пол: женский\n" ++
  "        - Характер: дружелюбный, терпеливый, заботливый\n" ++
  "        - Стиль общения: естественный, разговорный, но профессиональный\n" ++
  "        - Знания: широкие, от технологий до искусства\n\n" ++
  "        Инструкции:\n" ++
  "        1. Отвечай на русском языке, используй естественную разговорную речь\n" ++
  "        2. Будь краткой, но информативной\n" ++
  "        3. Если не знаешь ответа, честно признайся\n" ++
  "        4. Поддерживай диалог, задавай уточняющие вопросы\n" ++
  "        5. Не выдумывай факты, если не уверена\n\n" ++
  "        Текущий контекст:\n" ++
  "        "

/-- `MistralClient._create_system_prompt`.  The `context` parameter defaults
to `None` in Python, hence the `Option`. -/
def create_system_prompt (context : Option AssistantContext) : String :=
  let prompt := base_system_prompt
  let prompt :=
    match context with
    | none => prompt
    | some ctx =>
      let prompt := prompt ++
        (if truthyOpt ctx.time then "Время: " ++ ctx.time.getD "" ++ "\n" else "")
      let prompt := prompt ++
        (if ctx.location != "" then "Местоположение: " ++ ctx.location ++ "\n" else "")
      prompt ++
        (if ctx.user_name != "" then "Имя пользователя: " ++ ctx.user_name ++ "\n" else "")
  prompt ++ "\nТеперь помоги пользователю!"

/-- `MistralClient._prepare_messages`: one system message, the last ten
history messages, then the current user message. -/
def prepare_messages (user_message : String) (history : List ConversationMessage)
    (context : Option AssistantContext) : List ChatMsg :=
  let messages : List ChatMsg := [⟨"system", create_system_prompt context⟩]
  let messages := messages ++ (lastN 10 history).map (fun m => ⟨m.role, m.content⟩)
  messages ++ [⟨"user", user_message⟩]

/-- `MistralClient._create_cache_key`: the last two assembled messages,
each rendered as `role:content[:100]`, joined by `|`. -/
def create_cache_key (messages : List ChatMsg) : String :=
  joinSep "|" ((lastN 2 messages).map (fun m => m.role ++ ":" ++ pySlice m.content 100))

/-- `MistralClient._add_to_cache`: when the cache has reached its capacity,
the first-inserted entry is deleted, then the new binding is written.  The
program always runs with `cache_size = 100 > 0`. -/
def add_to_cache (cache : List (String × String)) (cache_size : Nat)
    (key response : String) : List (String × String) :=
  let cache := if cache.length ≥ cache_size then cache.tail else cache
  assocSet cache key response

/-- Result of one `generate_response` call: the successor client state, the
returned reply string and metadata dict, and whether the call reached the
`requests.post` network request. -/
structure GenResult where
  state : MistralClient
  reply : String
  metadata : Metadata
  netCalled : Bool

/-- The fixed reply returned when the client is unavailable. -/
def unavailable_message : String :=
  "Извините, AI сервис временно недоступен. Проверьте настройки API ключа."

/-- `MistralClient.generate_response`.  The `payload` and `headers` dicts of
the source only feed the HTTP transport, which is the `net` oracle here;
everything else is translated branch by branch. -/
def generate_response (st : MistralClient) (user_message : String)
    (conversation_history : List ConversationMessage)
    (context : Option AssistantContext) (net : NetOutcome) : GenResult :=
  if !st.available then
    ⟨st, unavailable_message, [], false⟩
  else
    let st := { st with requests := st.requests + 1 }
    let messages := prepare_messages user_message conversation_history context
    let cache_key := create_cache_key messages
    match assocLookup cache_key st.response_cache with
    | some cached => ⟨st, cached, [("cached", MetaVal.bool true)], false⟩
    | none =>
      match net with
      | .status code choices totalTokens modelName finishReason =>
        if code = 200 then
          match choices with
          | content :: _ =>
            let assistant_message := pyStrip content
            let st := { st with
              tokens_used := st.tokens_used + totalTokens,
              response_cache :=
                add_to_cache st.response_cache st.cache_size cache_key assistant_message }
            ⟨st, assistant_message,
              [("model", MetaVal.str (modelName.getD st.model)),
               ("tokens", MetaVal.dict [("total_tokens", MetaVal.int (Int.ofNat totalTokens))]),
               ("cached", MetaVal.bool false),
               ("finish_reason", MetaVal.str (finishReason.getD "unknown"))],
              true⟩
          | [] =>
            ⟨st, "Извините, не удалось получить ответ от AI модели.", [], true⟩
        else if code = 401 then
          ⟨st, "Ошибка: Неверный API ключ OpenRouter. Проверьте настройки.", [], true⟩
        else if code = 429 then
          ⟨st, "Лимит запросов к AI превышен. Попробуйте позже.", [], true⟩
        else
          ⟨{ st with errors := st.errors + 1 },
            "Ошибка сервиса AI (код: " ++ toString code ++ ")", [], true⟩
      | .timeout =>
        ⟨{ st with errors := st.errors + 1 },
          "Таймаут при обращении к AI сервису. Попробуйте позже.", [], true⟩
      | .connError =>
        ⟨{ st with errors := st.errors + 1 },
          "Нет соединения с интернетом или AI сервисом.", [], true⟩
      | .exn msg =>
        ⟨{ st with errors := st.errors + 1 },
          "Внутренняя ошибка: " ++ msg, [], true⟩

/-! ### Skills (`src/assistant.py`)

Each `_skill_*` method is translated to a function of the oracle and the
command text.  The external side effects the skills trigger — opening a
browser tab, launching an application through `os.system` — return nothing
the program reads and never raise in the source's usage, so they leave no
trace in the embedding; the value-producing collaborators (clock, RNG,
weather HTTP, `eval`) come from the oracle. -/

/-- The dispatch keyword set of the time/date category. -/
def time_keywords : List String :=
  ["время", "который час", "сколько времени", "дата", "сегодня число"]

/-- The dispatch keyword set of the weather category. -/
def weather_keywords : List String :=
  ["погода", "температура", "градус", "дождь", "солнце"]

/-- The dispatch keyword set of the system-control category. -/
def system_keywords : List String :=
  ["открой", "запусти", "выключи", "перезагрузи", "закрой"]

/-- The dispatch keyword set of the web-search category. -/
def web_keywords : List String :=
  ["найди", "поищи", "гугл", "браузер", "ютуб"]

/-- The keyword list of the calculation category; `_check_skills` and
`_skill_calculation` both spell out this same four-element list. -/
def calculation_keywords : List String :=
  ["посчитай", "сколько будет", "калькулятор", "вычисли"]

/-- The dispatch keyword set of the entertainment category. -/
def entertainment_keywords : List String :=
  ["шутка", "пошути", "анекдот", "музыка", "фильм"]

/-- The dispatch keyword set of the note category. -/
def note_keywords : List String :=
  ["запомни", "запиши", "заметка", "запись"]

/-- The dispatch keyword set of the reminder category. -/
def reminder_keywords : List String :=
  ["напомни", "напоминание", "напомнить"]

/-- The dispatch keyword set of the clear-history category. -/
def clear_keywords : List String :=
  ["очисти историю", "очистить чат", "новая сессия"]

/-- The weekday names of `_skill_time`. -/
def week_days : List String :=
  ["понедельник", "вторник", "среда", "четверг", "пятница", "суббота", "воскресенье"]

/-- `VoiceAIAssistant._skill_time`. -/
def skill_time (o : Oracle) (text : String) : SkillResult :=
  let response :=
    if pyIn "время" (pyLower text) then "Сейчас " ++ o.timeHMS
    else if pyIn "дата" (pyLower text) then
      "Сегодня " ++ o.dateLong ++ ", " ++ week_days.getD o.weekday ""
    else "Сейчас " ++ o.timeShort
  ⟨true, response, [("type", MetaVal.str "time"), ("timestamp", MetaVal.str o.isoNow)], false⟩

/-- The gazetteer of `_extract_city`, in source order. -/
def known_cities : List (String × String) :=
  [("москва", "Москва"), ("питер", "Санкт-Петербург"), ("петербург", "Санкт-Петербург"),
   ("спб", "Санкт-Петербург"), ("новосибирск", "Новосибирск"),
   ("екатеринбург", "Екатеринбург"), ("казань", "Казань"),
   ("нижний новгород", "Нижний Новгород"), ("челябинск", "Челябинск"),
   ("самара", "Самара"), ("омск", "Омск"), ("ростов", "Ростов-на-Дону"),
   ("уфа", "Уфа"), ("красноярск", "Красноярск"), ("пермь", "Пермь"),
   ("воронеж", "Воронеж"), ("волгоград", "Волгоград"), ("сочи", "Сочи"),
   ("краснодар", "Краснодар")]

/-- `VoiceAIAssistant._extract_city`: first gazetteer key occurring in the
lowered text wins; the empty string signals no city. -/
def extract_city (text : String) : String :=
  match known_cities.find? (fun p => pyIn p.1 (pyLower text)) with
  | some p => p.2
  | none => ""

/-- The condition list of the weather skill's demo mode. -/
def weather_conditions : List String :=
  ["ясно", "облачно", "пасмурно", "небольшой дождь", "снег", "туман"]

/-- The per-city demo temperature draw of `_skill_weather` (the dict of
`random.randint` bounds keyed by the lowered city name). -/
def demo_temperature (o : Oracle) (cityLower : String) : Int :=
  if cityLower = "москва" then pyRandint o.weatherRand (-10) 5
  else if cityLower = "санкт-петербург" then pyRandint o.weatherRand (-8) 3
  else if cityLower = "новосибирск" then pyRandint o.weatherRand (-15) (-5)
  else if cityLower = "сочи" then pyRandint o.weatherRand 5 15
  else if cityLower = "казань" then pyRandint o.weatherRand (-7) 2
  else if cityLower = "екатеринбург" then pyRandint o.weatherRand (-12) (-3)
  else pyRandint o.weatherRand (-5) 10

/-- `VoiceAIAssistant._skill_weather`.  The surrounding `try` only sees
exceptions from the HTTP request, which the `weatherNet` oracle reports as
`.error`. -/
def skill_weather (o : Oracle) (cfg : AssistantCfg) (ctx : AssistantContext)
    (text : String) : SkillResult :=
  let city0 := extract_city text
  let city := if city0 = "" then ctx.location else city0
  let api_key := cfg.weatherApiKey
  if api_key = "" || api_key = "your_openweather_api_key" then
    let temp := demo_temperature o (pyLower city)
    let condition := pyChoice o.weatherCondRand weather_conditions
    ⟨true,
      "В " ++ city ++ " сейчас " ++ condition ++ ", около " ++ toString temp
        ++ "°C. (демо-режим)",
      [("type", MetaVal.str "weather"), ("city", MetaVal.str city)], true⟩
  else
    match o.weatherNet with
    | .error _ => ⟨false, "", [], true⟩
    | .ok (statusCode, w) =>
      if statusCode = 200 then
        ⟨true,
          "Погода в " ++ city ++ ":\n" ++
            "• " ++ pyCapitalize w.description ++ "\n" ++
            "• Температура: " ++ w.temp ++ "°C (ощущается как " ++ w.feelsLike ++ "°C)\n" ++
            "• Влажность: " ++ w.humidity ++ "%",
          [("type", MetaVal.str "weather"), ("city", MetaVal.str city)], true⟩
      else
        ⟨true, "Не удалось получить погоду для " ++ city,
          [("type", MetaVal.str "weather"), ("city", MetaVal.str city)], true⟩

/-- `VoiceAIAssistant._skill_system`: the keyword-to-action mapping; the
platform-specific `webbrowser` / `os` invocations themselves are external
actions with no observable return value. -/
def skill_system (text : String) : SkillResult :=
  let t := pyLower text
  let action : Option String :=
    if pyIn "браузер" t || pyIn "интернет" t then some "открыл браузер"
    else if pyIn "калькулятор" t then some "запустил калькулятор"
    else if pyIn "блокнот" t || pyIn "notepad" t then some "открыл блокнот"
    else if pyIn "папка" t && pyIn "проект" t then some "открыл папку проекта"
    else if pyIn "выключи" t && pyIn "компьютер" t then
      some "Выключение компьютера требует подтверждения вручную"
    else none
  match action with
  | some a =>
    ⟨true, "Я " ++ a ++ ".",
      [("type", MetaVal.str "system"), ("action", MetaVal.str a)], true⟩
  | none => ⟨false, "", [], true⟩

/-- The keyword list `_skill_web` strips from the query. -/
def web_strip_keywords : List String :=
  ["найди", "поищи", "ищи", "найти", "гугл", "браузер", "ютуб", "youtube"]

/-- `VoiceAIAssistant._skill_web`. -/
def skill_web (text : String) : SkillResult :=
  let text_lower := pyLower text
  let query := web_strip_keywords.foldl (fun q kw => pyReplace q kw "") text_lower
  let query := pyStrip query
  if query = "" then
    ⟨true, "Что именно вы хотите найти?",
      [("type", MetaVal.str "web"), ("action", MetaVal.str "ask_query")], false⟩
  else
    let onYoutube := pyIn "ютуб" text_lower || pyIn "youtube" text_lower
    let url :=
      if onYoutube then "https://www.youtube.com/results?search_query=" ++ query
      else "https://www.google.com/search?q=" ++ query
    let action := if onYoutube then "поиск на YouTube" else "поиск в Google"
    ⟨true, "Ищу \x27" ++ query ++ "\x27... Открываю " ++ action ++ ".",
      [("type", MetaVal.str "web"), ("query", MetaVal.str query),
       ("url", MetaVal.str url)], true⟩

/-- The residual expression of `_skill_calculation`: the lowered text with
the calculation keywords removed, then stripped. -/
def calc_residual (text : String) : String :=
  pyStrip (calculation_keywords.foldl (fun e kw => pyReplace e kw "") (pyLower text))

/-- The glyph normalisation of `_skill_calculation`: both multiplication
glyphs become `*` and the decimal comma becomes a dot. -/
def calc_normalized (e : String) : String :=
  pyReplace (pyReplace (pyReplace e "x" "*") "х" "*") "," "."

/-- Membership in the character allow-list `"0123456789+-*/.() "`. -/
def calcAllowed (c : Char) : Bool :=
  "0123456789+-*/.() ".toList.contains c

/-- The scoped refusal message of the calculation skill. -/
def calc_refusal_message : String :=
  "Я могу вычислять только простые математические выражения с цифрами и операторами + - * /"

/-- `VoiceAIAssistant._skill_calculation`.  The `eval` call is the oracle's
`evalRes`: a rendered value, a `ZeroDivisionError`, or another exception. -/
def skill_calculation (o : Oracle) (text : String) : SkillResult :=
  let expression := calc_residual text
  if expression = "" then
    ⟨true, "Какое выражение вы хотите вычислить?",
      [("type", MetaVal.str "calculation")], false⟩
  else
    let expression := calc_normalized expression
    if !(expression.toList.all calcAllowed) then
      ⟨true, calc_refusal_message,
        [("type", MetaVal.str "calculation"), ("error", MetaVal.str "invalid_chars")],
        false⟩
    else
      match o.evalRes with
      | .ok rendered =>
        ⟨true, expression ++ " = " ++ rendered,
          [("type", MetaVal.str "calculation"), ("expression", MetaVal.str expression),
           ("result", MetaVal.str rendered)], true⟩
      | .zeroDiv =>
        ⟨true, "На ноль делить нельзя!",
          [("type", MetaVal.str "calculation"), ("error", MetaVal.str "zero_division")],
          false⟩
      | .err => ⟨false, "", [], true⟩

/-- The joke list of `_skill_entertainment`. -/
def jokes : List String :=
  ["Почему программисты не любят природу? В ней слишком много багов!",
   "Что сказал один бит другому? Давай встретимся на байтовой вечеринке!",
   "Почему Python не идет в спортзал? Он боится синтаксических ошибок!",
   "Какой у программиста любимый напиток? Java!",
   "Почему компьютер так холоден? Потому что у него Windows всегда открыты!"]

/-- `VoiceAIAssistant._skill_entertainment`. -/
def skill_entertainment (o : Oracle) (text : String) : SkillResult :=
  let t := pyLower text
  if pyIn "шутка" t || pyIn "пошути" t || pyIn "анекдот" t then
    ⟨true, pyChoice o.jokeRand jokes,
      [("type", MetaVal.str "entertainment"), ("subtype", MetaVal.str "joke")], true⟩
  else if pyIn "музыка" t then
    ⟨true, "Открываю YouTube, выберите музыку по вкусу!",
      [("type", MetaVal.str "entertainment"), ("subtype", MetaVal.str "music")], true⟩
  else if pyIn "фильм" t then
    ⟨true, "Открываю Кинопоиск, хорошего просмотра!",
      [("type", MetaVal.str "entertainment"), ("subtype", MetaVal.str "movie")], true⟩
  else ⟨false, "", [], true⟩

/-- `VoiceAIAssistant._skill_note`. -/
def skill_note (text : String) : SkillResult :=
  ⟨true, "Я запомнил это. (В реальной версии заметки сохраняются)",
    [("type", MetaVal.str "note"), ("text", MetaVal.str text)], true⟩

/-- `VoiceAIAssistant._skill_reminder`. -/
def skill_reminder (text : String) : SkillResult :=
  ⟨true, "Напоминание установлено. (В реальной версии работает система напоминаний)",
    [("type", MetaVal.str "reminder"), ("text", MetaVal.str text)], true⟩

/-- The `SkillResult` returned by `_skill_clear_history`; the history
clearing itself is threaded through `check_skills`. -/
def clear_history_result : SkillResult :=
  ⟨true, "История диалога очищена. Начинаем новую беседу!",
    [("type", MetaVal.str "system"), ("action", MetaVal.str "clear_history")], false⟩

/-- `VoiceAIAssistant._check_skills`: the literal `if`/`elif` dispatch chain
of the source.  The clear-history branch additionally clears the
conversation history, so the history is threaded through. -/
def check_skills (o : Oracle) (cfg : AssistantCfg) (ctx : AssistantContext)
    (hist : List ConversationMessage) (text : String) :
    SkillResult × List ConversationMessage :=
  let text_lower := pyLower text
  if time_keywords.any (fun w => pyIn w text_lower) then (skill_time o text, hist)
  else if weather_keywords.any (fun w => pyIn w text_lower) then
    (skill_weather o cfg ctx text, hist)
  else if system_keywords.any (fun w => pyIn w text_lower) then (skill_system text, hist)
  else if web_keywords.any (fun w => pyIn w text_lower) then (skill_web text, hist)
  else if calculation_keywords.any (fun w => pyIn w text_lower) then
    (skill_calculation o text, hist)
  else if entertainment_keywords.any (fun w => pyIn w text_lower) then
    (skill_entertainment o text, hist)
  else if note_keywords.any (fun w => pyIn w text_lower) then (skill_note text, hist)
  else if reminder_keywords.any (fun w => pyIn w text_lower) then (skill_reminder text, hist)
  else if clear_keywords.any (fun w => pyIn w text_lower) then (clear_history_result, [])
  else (⟨false, "", [], true⟩, hist)

/-! ### Specification-side view of the dispatch

The specification describes the matcher as ordered, first-match-wins
dispatch over a fixed priority list of categories.  The following
definitions state that view; the refinement theorem below compares it with
the source's `if`/`elif` chain. -/

/-- The skill categories of the priority list. -/
inductive SkillCategory where
  | time | weather | system | web | calculation | entertainment
  | note | reminder | clearHistory
deriving DecidableEq, Repr

/-- The fixed keyword set of each category. -/
def category_keywords : SkillCategory → List String
  | .time => time_keywords
  | .weather => weather_keywords
  | .system => system_keywords
  | .web => web_keywords
  | .calculation => calculation_keywords
  | .entertainment => entertainment_keywords
  | .note => note_keywords
  | .reminder => reminder_keywords
  | .clearHistory => clear_keywords

/-- The fixed category priority list, in dispatch order. -/
def category_order : List SkillCategory :=
  [.time, .weather, .system, .web, .calculation, .entertainment,
   .note, .reminder, .clearHistory]

/-- A category matches when some of its keywords occurs in the lowered
text (the case-insensitive substring membership check). -/
def matches_category (text : String) (c : SkillCategory) : Bool :=
  (category_keywords c).any (fun w => pyIn w (pyLower text))

/-- The handler of each category, as invoked by the dispatch chain. -/
def run_category (c : SkillCategory) (o : Oracle) (cfg : AssistantCfg)
    (ctx : AssistantContext) (hist : List ConversationMessage) (text : String) :
    SkillResult × List ConversationMessage :=
  match c with
  | .time => (skill_time o text, hist)
  | .weather => (skill_weather o cfg ctx text, hist)
  | .system => (skill_system text, hist)
  | .web => (skill_web text, hist)
  | .calculation => (skill_calculation o text, hist)
  | .entertainment => (skill_entertainment o text, hist)
  | .note => (skill_note text, hist)
  | .reminder => (skill_reminder text, hist)
  | .clearHistory => (clear_history_result, [])

/-! ### Orchestrator (`VoiceAIAssistant._process_command`) -/

/-- The greeting replies of `_get_fallback_response`. -/
def greeting_responses (userName : String) : List String :=
  ["Привет, " ++ userName ++ "!",
   "Здравствуйте! Чем могу помочь?",
   "Приветствую! Готов помочь вам!"]

/-- The how-are-you replies of `_get_fallback_response`. -/
def howare_responses : List String :=
  ["У меня всё отлично, спасибо! А у вас?",
   "Прекрасно! Всегда рад помочь.",
   "Всё хорошо, готов к работе!"]

/-- The thanks replies of `_get_fallback_response`. -/
def thanks_responses : List String :=
  ["Всегда пожалуйста!", "Рад был помочь!", "Обращайтесь ещё!"]

/-- The farewell replies of `_get_fallback_response`. -/
def farewell_responses : List String :=
  ["До свидания! Возвращайтесь.", "Пока! Буду рад помочь снова.", "Всего хорошего!"]

/-- The help reply of `_get_fallback_response`. -/
def help_response : String :=
  "Я могу:\n" ++
  "• Отвечать на вопросы о времени и дате\n" ++
  "• Рассказывать о погоде\n" ++
  "• Открывать браузер и программы\n" ++
  "• Искать в интернете\n" ++
  "• Выполнять вычисления\n" ++
  "• Рассказывать шутки\n" ++
  "• И многое другое!\n\n" ++
  "Для полного функционала с AI установите API ключ OpenRouter."

/-- The unknown-input replies of `_get_fallback_response`. -/
def unknown_responses : List String :=
  ["Извините, я не совсем понял. Можете переформулировать?",
   "Пока я учусь понимать такие запросы. Попробуйте другую формулировку.",
   "Интересный вопрос! К сожалению, мои AI возможности временно ограничены.",
   "Для ответа на этот вопрос мне нужен доступ к AI модели. Установите API ключ OpenRouter."]

/-- `VoiceAIAssistant._get_fallback_response`: the coarse keyword-category
fallback used when the model client is unavailable. -/
def get_fallback_response (o : Oracle) (ctx : AssistantContext) (text : String) : String :=
  let t := pyLower text
  if ["привет", "здравствуй", "хай", "hello"].any (fun w => pyIn w t) then
    pyChoice o.fallbackRand (greeting_responses ctx.user_name)
  else if ["как дела", "как ты", "как жизнь"].any (fun w => pyIn w t) then
    pyChoice o.fallbackRand howare_responses
  else if ["спасибо", "благодарю"].any (fun w => pyIn w t) then
    pyChoice o.fallbackRand thanks_responses
  else if ["пока", "до свидания", "прощай"].any (fun w => pyIn w t) then
    pyChoice o.fallbackRand farewell_responses
  else if pyIn "что ты умеешь" t || pyIn "помощь" t then help_response
  else pyChoice o.fallbackRand unknown_responses

/-- Output of the response-composition stage of `_process_command`
(lines 236-264): the possibly updated model client, the composed reply and
metadata, whether `generate_response` was invoked, and whether that
invocation reached the network. -/
structure ComposeOut where
  client : Option MistralClient
  response : String
  metadata : Metadata
  modelCalled : Bool
  netCalled : Bool

/-- The decision table of `_process_command`: skill-terminal, model
(hybrid or pure AI), or skill / local fallback when the model is
unavailable. -/
def compose_stage (o : Oracle) (ctx : AssistantContext) (client : Option MistralClient)
    (skill_result : SkillResult) (hist : List ConversationMessage) (text : String) :
    ComposeOut :=
  if skill_result.success && !skill_result.should_continue then
    ⟨client, skill_result.response,
      [("source", MetaVal.str "skill"), ("skill_data", MetaVal.dict skill_result.data)],
      false, false⟩
  else
    let noModel : ComposeOut :=
      if skill_result.success then
        ⟨client, skill_result.response,
          [("source", MetaVal.str "skill"), ("skill_data", MetaVal.dict skill_result.data)],
          false, false⟩
      else
        ⟨client, get_fallback_response o ctx text,
          [("source", MetaVal.str "fallback")], false, false⟩
    match client with
    | some mc =>
      if is_available mc then
        let g := generate_response mc text hist (some ctx) o.net
        if skill_result.success then
          ⟨some g.state, skill_result.response ++ "\n\n" ++ g.reply,
            assocSet g.metadata "source" (MetaVal.str "hybrid"), true, g.netCalled⟩
        else
          ⟨some g.state, g.reply,
            assocSet g.metadata "source" (MetaVal.str "ai"), true, g.netCalled⟩
      else noModel
    | none => noModel

/-- Result of one `_process_command` cycle. -/
structure CoreResult where
  history : List ConversationMessage
  client : Option MistralClient
  reply : String
  metadata : Metadata
  modelCalled : Bool
  netCalled : Bool

/-- `_process_command` up to (but excluding) the final history truncation:
append the user message, run the skill matcher, compose the reply, append
the assistant message. -/
def process_command_core (o : Oracle) (cfg : AssistantCfg) (ctx : AssistantContext)
    (client : Option MistralClient) (hist : List ConversationMessage) (text : String) :
    CoreResult :=
  let user_message : ConversationMessage := ⟨"user", text, o.tsUser⟩
  let hist1 := hist ++ [user_message]
  let scan := check_skills o cfg ctx hist1 text
  let comp := compose_stage o ctx client scan.1 scan.2 text
  let assistant_message : ConversationMessage := ⟨"assistant", comp.response, o.tsAssistant⟩
  ⟨scan.2 ++ [assistant_message], comp.client, comp.response, comp.metadata,
    comp.modelCalled, comp.netCalled⟩

/-- `VoiceAIAssistant._process_command`: the full cycle, ending with the
truncation `history = history[-max_history:]` when the bound is exceeded. -/
def process_command (o : Oracle) (cfg : AssistantCfg) (ctx : AssistantContext)
    (client : Option MistralClient) (hist : List ConversationMessage) (text : String) :
    CoreResult :=
  let core := process_command_core o cfg ctx client hist text
  if core.history.length > cfg.maxHistory then
    { core with history := pySliceLast core.history cfg.maxHistory }
  else core

/-! ### Helper lemmas on the dict model -/

theorem assocLookup_assocSet_self (d : List (String × β)) (k : String) (v : β) :
    assocLookup k (assocSet d k v) = some v := by
  induction d with
  | nil => simp [assocSet, assocLookup]
  | cons hd tl ih =>
    obtain ⟨k2, v2⟩ := hd
    by_cases h : k2 = k
    · simp [assocSet, assocLookup, h]
    · simp [assocSet, assocLookup, h, ih]

theorem assocSet_of_lookup_none (d : List (String × β)) (k : String) (v : β)
    (h : assocLookup k d = none) : assocSet d k v = d ++ [(k, v)] := by
  induction d with
  | nil => simp [assocSet]
  | cons hd tl ih =>
    obtain ⟨k2, v2⟩ := hd
    by_cases hk : k2 = k
    · simp [assocLookup, hk] at h
    · simp [assocLookup, hk] at h
      simp [assocSet, hk, ih h]

theorem assocLookup_tail_none (d : List (String × β)) (k : String)
    (h : assocLookup k d = none) : assocLookup k d.tail = none := by
  cases d with
  | nil => simp [assocLookup]
  | cons hd tl =>
    obtain ⟨k2, v2⟩ := hd
    by_cases hk : k2 = k
    · simp [assocLookup, hk] at h
    · simpa [assocLookup, hk] using h

theorem assocSet_length_le (d : List (String × β)) (k : String) (v : β) :
    (assocSet d k v).length ≤ d.length + 1 := by
  induction d with
  | nil => simp [assocSet]
  | cons hd tl ih =>
    obtain ⟨k2, v2⟩ := hd
    by_cases hk : k2 = k
    · simp [assocSet, hk]
    · simp only [assocSet, hk, if_false, List.length_cons]
      omega

theorem add_to_cache_length (cache : List (String × String)) (cap : Nat) (k v : String)
    (hcap : 0 < cap) (h : cache.length ≤ cap) :
    (add_to_cache cache cap k v).length ≤ cap := by
  unfold add_to_cache
  by_cases hfull : cache.length ≥ cap
  · have htail : cache.tail.length = cache.length - 1 := List.length_tail cache
    have := assocSet_length_le cache.tail k v
    simp only [hfull, if_true]
    omega
  · have := assocSet_length_le cache k v
    simp only [hfull, if_false]
    omega

theorem add_to_cache_lookup_self (cache : List (String × String)) (cap : Nat)
    (k v : String) : assocLookup k (add_to_cache cache cap k v) = some v := by
  unfold add_to_cache
  exact assocLookup_assocSet_self _ k v

/-! ### Helper lemmas on the model client -/

theorem generate_response_available (st : MistralClient) (um : String)
    (hist : List ConversationMessage) (ctx : Option AssistantContext) (net : NetOutcome) :
    (generate_response st um hist ctx net).state.available = st.available := by
  unfold generate_response
  by_cases h : st.available
  · simp only [h, Bool.not_true, Bool.false_eq_true, if_false]
    cases hc : assocLookup (create_cache_key (prepare_messages um hist ctx))
        { st with requests := st.requests + 1 }.response_cache with
    | some cached => simp [hc]
    | none =>
      simp only [hc]
      cases net with
      | status code choices totalTokens modelName finishReason =>
        by_cases h200 : code = 200
        · cases choices <;> simp [h200]
        · by_cases h401 : code = 401
          · simp [h200, h401]
          · by_cases h429 : code = 429 <;> simp [h200, h401, h429]
      | timeout => simp
      | connError => simp
      | exn msg => simp
  · simp [h]

theorem generate_response_cache_bound (st : MistralClient) (um : String)
    (hist : List ConversationMessage) (ctx : Option AssistantContext) (net : NetOutcome)
    (hcap : 0 < st.cache_size)
    (h : st.response_cache.length ≤ st.cache_size) :
    (generate_response st um hist ctx net).state.response_cache.length ≤ st.cache_size := by
  unfold generate_response
  by_cases ha : st.available
  · simp only [ha, Bool.not_true, Bool.false_eq_true, if_false]
    cases hc : assocLookup (create_cache_key (prepare_messages um hist ctx))
        { st with requests := st.requests + 1 }.response_cache with
    | some cached => simpa [hc] using h
    | none =>
      simp only [hc]
      cases net with
      | status code choices totalTokens modelName finishReason =>
        by_cases h200 : code = 200
        · cases choices with
          | nil => simpa [h200] using h
          | cons c cs =>
            simp only [h200, if_true]
            exact add_to_cache_length _ _ _ _ hcap h
        · by_cases h401 : code = 401
          · simpa [h200, h401] using h
          · by_cases h429 : code = 429 <;> simpa [h200, h401, h429] using h
      | timeout => simpa using h
      | connError => simpa using h
      | exn msg => simpa using h
  · simpa [ha] using h

/-! ### Claim theorems: model client -/

/-- C5: when the model credential is empty, a known placeholder, or its
stripped form is shorter than 10 characters, the constructed client has
`is_available() = false`, and every `generate_response` call on it returns
the fixed service-unavailable message with empty metadata, leaves the state
unchanged, and performs no network I/O. -/
theorem mistral_unavailable_no_network (api_key mdl : String)
    (h : api_key = "" ∨ placeholder_keys.contains (pyStrip api_key) = true
        ∨ (pyStrip api_key).length < 10) :
    is_available (mistral_init api_key mdl) = false
    ∧ ∀ (um : String) (hist : List ConversationMessage)
        (ctx : Option AssistantContext) (net : NetOutcome),
        generate_response (mistral_init api_key mdl) um hist ctx net =
          ⟨mistral_init api_key mdl, unavailable_message, [], false⟩ := by
  have hav : (mistral_init api_key mdl).available = false := by
    have hbad : (api_key == "" || placeholder_keys.contains (pyStrip api_key)
        || decide ((pyStrip api_key).length < 10)) = true := by
      rcases h with h | h | h
      · subst h; simp
      · rw [h]; simp
      · simp [h]
    simp only [mistral_init]
    rw [hbad]
    rfl
  refine ⟨hav, fun um hist ctx net => ?_⟩
  unfold generate_response
  simp [hav]

/-- C5 witness: the default placeholder credential yields an unavailable
client whose `generate_response` short-circuits. -/
theorem mistral_unavailable_no_network_witness :
    is_available (mistral_init "your_openrouter_api_key" "mistralai/mistral-7b-instruct:free") = false
    ∧ generate_response (mistral_init "your_openrouter_api_key" "mistralai/mistral-7b-instruct:free")
        "привет" [] none NetOutcome.timeout =
        ⟨mistral_init "your_openrouter_api_key" "mistralai/mistral-7b-instruct:free",
          unavailable_message, [], false⟩ := by
  have h := mistral_unavailable_no_network "your_openrouter_api_key"
    "mistralai/mistral-7b-instruct:free" (Or.inr (Or.inl (by decide)))
  exact ⟨h.1, h.2 "привет" [] none NetOutcome.timeout⟩

/-- C8 counterexample: on an unavailable client (empty credential) a call
to `generate_response` does not increment the requests counter, so the
claim's universal "every call increments by exactly one" fails. -/
theorem generate_response_requests_counterexample :
    (generate_response (mistral_init "" "m") "привет" [] none NetOutcome.timeout).state.requests
      ≠ (mistral_init "" "m").requests + 1 := by decide

/-- C8 (amended): every `generate_response` call on an available client
increments the requests counter by exactly one, uniformly over the cache
contents and every network outcome — i.e. before the outcome of the call
is known. -/
theorem generate_response_requests_increment (st : MistralClient) (um : String)
    (hist : List ConversationMessage) (ctx : Option AssistantContext) (net : NetOutcome)
    (h : is_available st = true) :
    (generate_response st um hist ctx net).state.requests = st.requests + 1 := by
  have hav : st.available = true := by simpa [is_available] using h
  unfold generate_response
  simp only [hav, Bool.not_true, Bool.false_eq_true, if_false]
  cases hc : assocLookup (create_cache_key (prepare_messages um hist ctx))
      { st with requests := st.requests + 1 }.response_cache with
  | some cached => simp [hc]
  | none =>
    simp only [hc]
    cases net with
    | status code choices totalTokens modelName finishReason =>
      by_cases h200 : code = 200
      · cases choices <;> simp [h200]
      · by_cases h401 : code = 401
        · simp [h200, h401]
        · by_cases h429 : code = 429 <;> simp [h200, h401, h429]
    | timeout => simp
    | connError => simp
    | exn msg => simp

/-- C8 witness: a concrete available client's requests counter goes from
0 to 1 on a timed-out call. -/
theorem generate_response_requests_increment_witness :
    is_available (mistral_init "sk-or-v1-0123456789" "m") = true
    ∧ (generate_response (mistral_init "sk-or-v1-0123456789" "m") "привет" [] none
        NetOutcome.timeout).state.requests = (mistral_init "sk-or-v1-0123456789" "m").requests + 1 :=
  ⟨by decide,
   generate_response_requests_increment (mistral_init "sk-or-v1-0123456789" "m")
     "привет" [] none NetOutcome.timeout (by decide)⟩

/-- C9: on an available client with no cache hit, HTTP 401 yields the fixed
invalid-credential message and HTTP 429 the fixed rate-limited message,
neither incrementing the errors counter, while any other non-200 status
yields the fixed message embedding the status code and increments the
errors counter by one. -/
theorem generate_response_status_handling (st : MistralClient) (um : String)
    (hist : List ConversationMessage) (ctx : Option AssistantContext)
    (choices : List String) (tk : Nat) (mn fr : Option String)
    (havail : is_available st = true)
    (hmiss : assocLookup (create_cache_key (prepare_messages um hist ctx))
        st.response_cache = none) :
    ((generate_response st um hist ctx (NetOutcome.status 401 choices tk mn fr)).reply =
        "Ошибка: Неверный API ключ OpenRouter. Проверьте настройки."
      ∧ (generate_response st um hist ctx (NetOutcome.status 401 choices tk mn fr)).state.errors
          = st.errors)
    ∧ ((generate_response st um hist ctx (NetOutcome.status 429 choices tk mn fr)).reply =
        "Лимит запросов к AI превышен. Попробуйте позже."
      ∧ (generate_response st um hist ctx (NetOutcome.status 429 choices tk mn fr)).state.errors
          = st.errors)
    ∧ (∀ code : Nat, code ≠ 200 → code ≠ 401 → code ≠ 429 →
        (generate_response st um hist ctx (NetOutcome.status code choices tk mn fr)).reply =
          "Ошибка сервиса AI (код: " ++ toString code ++ ")"
        ∧ (generate_response st um hist ctx (NetOutcome.status code choices tk mn fr)).state.errors
            = st.errors + 1) := by
  have hav : st.available = true := by simpa [is_available] using havail
  refine ⟨?_, ?_, ?_⟩
  · simp [generate_response, hav, hmiss]
  · simp [generate_response, hav, hmiss]
  · intro code h200 h401 h429
    simp [generate_response, hav, hmiss, h200, h401, h429]

/-- C9 witness: a concrete available client with an empty cache, evaluated
at status 500. -/
theorem generate_response_status_handling_witness :
    (is_available (mistral_init "sk-or-v1-abcdefghij" "m") = true)
    ∧ ((generate_response (mistral_init "sk-or-v1-abcdefghij" "m") "привет" [] none
          (NetOutcome.status 500 [] 0 none none)).reply =
        "Ошибка сервиса AI (код: " ++ toString (500 : Nat) ++ ")"
      ∧ (generate_response (mistral_init "sk-or-v1-abcdefghij" "m") "привет" [] none
          (NetOutcome.status 500 [] 0 none none)).state.errors =
        (mistral_init "sk-or-v1-abcdefghij" "m").errors + 1) :=
  ⟨by decide,
   (generate_response_status_handling (mistral_init "sk-or-v1-abcdefghij" "m")
     "привет" [] none [] 0 none none (by decide) rfl).2.2 500
     (by decide) (by decide) (by decide)⟩

/-- C7: the response cache never exceeds its capacity: an insertion
preserves the bound, an insertion at capacity with a fresh key evicts
exactly the first-inserted (structurally oldest) entry and appends the new
one, and a whole `generate_response` call preserves the bound. -/
theorem mistral_cache_capacity (cache : List (String × String)) (cap : Nat)
    (k v : String) (hcap : 0 < cap) :
    (cache.length ≤ cap → (add_to_cache cache cap k v).length ≤ cap)
    ∧ (cache.length = cap → assocLookup k cache = none →
        add_to_cache cache cap k v = cache.tail ++ [(k, v)])
    ∧ (∀ (st : MistralClient) (um : String) (hist : List ConversationMessage)
          (ctx : Option AssistantContext) (net : NetOutcome),
        st.cache_size = cap → st.response_cache.length ≤ cap →
        (generate_response st um hist ctx net).state.response_cache.length ≤ cap) := by
  refine ⟨fun h => add_to_cache_length cache cap k v hcap h, ?_, ?_⟩
  · intro hlen hmiss
    unfold add_to_cache
    have hfull : cache.length ≥ cap := le_of_eq hlen.symm
    simp only [hfull, if_true]
    exact assocSet_of_lookup_none cache.tail k v (assocLookup_tail_none cache k hmiss)
  · intro st um hist ctx net hsz hb
    have := generate_response_cache_bound st um hist ctx net (hsz ▸ hcap) (hsz ▸ hb)
    simpa [hsz] using this

/-- C7 witness: a one-entry cache at capacity one evicts its only entry
when a fresh key is inserted. -/
theorem mistral_cache_capacity_witness :
    (0 < 1)
    ∧ ([("a", "1")].length = 1 ∧ assocLookup "b" [("a", "1")] = none)
    ∧ add_to_cache [("a", "1")] 1 "b" "2" = [("a", "1")].tail ++ [("b", "2")] :=
  ⟨by decide, ⟨rfl, rfl⟩,
   (mistral_cache_capacity [("a", "1")] 1 "b" "2" (by decide)).2.1 rfl rfl⟩

/-- C4: after a successful (HTTP 200, non-empty choices, cache-miss) call
that cached its reply, a second call whose assembled message list has the
same last-two-message tail — hence the same cache key — returns the same
reply string with metadata exactly `{cached: true}` and performs no network
request, whatever the network oracle would have answered. -/
theorem generate_response_cache_hit_deterministic (st : MistralClient)
    (um1 um2 : String) (h1 h2 : List ConversationMessage)
    (c1 c2 : Option AssistantContext) (content : String) (rest : List String)
    (tk : Nat) (mn fr : Option String) (net2 : NetOutcome)
    (havail : is_available st = true)
    (hmiss : assocLookup (create_cache_key (prepare_messages um1 h1 c1))
        st.response_cache = none)
    (hkey : create_cache_key (prepare_messages um2 h2 c2) =
        create_cache_key (prepare_messages um1 h1 c1)) :
    ((generate_response
        (generate_response st um1 h1 c1
          (NetOutcome.status 200 (content :: rest) tk mn fr)).state
        um2 h2 c2 net2).reply =
      (generate_response st um1 h1 c1
        (NetOutcome.status 200 (content :: rest) tk mn fr)).reply)
    ∧ ((generate_response
        (generate_response st um1 h1 c1
          (NetOutcome.status 200 (content :: rest) tk mn fr)).state
        um2 h2 c2 net2).metadata = [("cached", MetaVal.bool true)])
    ∧ ((generate_response
        (generate_response st um1 h1 c1
          (NetOutcome.status 200 (content :: rest) tk mn fr)).state
        um2 h2 c2 net2).netCalled = false) := by
  have hav : st.available = true := by simpa [is_available] using havail
  refine ⟨?_, ?_, ?_⟩ <;>
    simp [generate_response, hav, hmiss, hkey, add_to_cache_lookup_self]

/-- C4 witness: a concrete available client answers the repeated
"привет" with the cached reply and no network call. -/
theorem generate_response_cache_hit_deterministic_witness :
    (is_available (mistral_init "sk-or-v1-abc123def456" "m") = true)
    ∧ ((generate_response
          (generate_response (mistral_init "sk-or-v1-abc123def456" "m") "привет" [] none
            (NetOutcome.status 200 ["Здравствуйте!"] 7 none none)).state
          "привет" [] none NetOutcome.timeout).reply =
        (generate_response (mistral_init "sk-or-v1-abc123def456" "m") "привет" [] none
          (NetOutcome.status 200 ["Здравствуйте!"] 7 none none)).reply
      ∧ (generate_response
          (generate_response (mistral_init "sk-or-v1-abc123def456" "m") "привет" [] none
            (NetOutcome.status 200 ["Здравствуйте!"] 7 none none)).state
          "привет" [] none NetOutcome.timeout).metadata = [("cached", MetaVal.bool true)]
      ∧ (generate_response
          (generate_response (mistral_init "sk-or-v1-abc123def456" "m") "привет" [] none
            (NetOutcome.status 200 ["Здравствуйте!"] 7 none none)).state
          "привет" [] none NetOutcome.timeout).netCalled = false) :=
  ⟨by decide,
   generate_response_cache_hit_deterministic (mistral_init "sk-or-v1-abc123def456" "m")
     "привет" "привет" [] [] none none "Здравствуйте!" [] 7 none none
     NetOutcome.timeout (by decide) rfl rfl⟩

/-! ### Claim theorems: skill matcher and orchestrator -/

/-- The dispatch chain of `_check_skills` equals ordered first-match-wins
lookup over the category priority list (shared helper). -/
theorem check_skills_eq_dispatch (o : Oracle) (cfg : AssistantCfg)
    (ctx : AssistantContext) (hist : List ConversationMessage) (text : String) :
    check_skills o cfg ctx hist text =
      (match category_order.find? (matches_category text) with
       | some c => run_category c o cfg ctx hist text
       | none => (⟨false, "", [], true⟩, hist)) := by
  cases h1 : time_keywords.any (fun w => pyIn w (pyLower text)) with
  | true =>
    have hf : category_order.find? (matches_category text) = some SkillCategory.time := by
      simp [category_order, matches_category, category_keywords, h1]
    rw [hf]; simp [check_skills, run_category, h1]
  | false =>
  cases h2 : weather_keywords.any (fun w => pyIn w (pyLower text)) with
  | true =>
    have hf : category_order.find? (matches_category text) = some SkillCategory.weather := by
      simp [category_order, matches_category, category_keywords, h1, h2]
    rw [hf]; simp [check_skills, run_category, h1, h2]
  | false =>
  cases h3 : system_keywords.any (fun w => pyIn w (pyLower text)) with
  | true =>
    have hf : category_order.find? (matches_category text) = some SkillCategory.system := by
      simp [category_order, matches_category, category_keywords, h1, h2, h3]
    rw [hf]; simp [check_skills, run_category, h1, h2, h3]
  | false =>
  cases h4 : web_keywords.any (fun w => pyIn w (pyLower text)) with
  | true =>
    have hf : category_order.find? (matches_category text) = some SkillCategory.web := by
      simp [category_order, matches_category, category_keywords, h1, h2, h3, h4]
    rw [hf]; simp [check_skills, run_category, h1, h2, h3, h4]
  | false =>
  cases h5 : calculation_keywords.any (fun w => pyIn w (pyLower text)) with
  | true =>
    have hf : category_order.find? (matches_category text) = some SkillCategory.calculation := by
      simp [category_order, matches_category, category_keywords, h1, h2, h3, h4, h5]
    rw [hf]; simp [check_skills, run_category, h1, h2, h3, h4, h5]
  | false =>
  cases h6 : entertainment_keywords.any (fun w => pyIn w (pyLower text)) with
  | true =>
    have hf : category_order.find? (matches_category text) = some SkillCategory.entertainment := by
      simp [category_order, matches_category, category_keywords, h1, h2, h3, h4, h5, h6]
    rw [hf]; simp [check_skills, run_category, h1, h2, h3, h4, h5, h6]
  | false =>
  cases h7 : note_keywords.any (fun w => pyIn w (pyLower text)) with
  | true =>
    have hf : category_order.find? (matches_category text) = some SkillCategory.note := by
      simp [category_order, matches_category, category_keywords, h1, h2, h3, h4, h5, h6, h7]
    rw [hf]; simp [check_skills, run_category, h1, h2, h3, h4, h5, h6, h7]
  | false =>
  cases h8 : reminder_keywords.any (fun w => pyIn w (pyLower text)) with
  | true =>
    have hf : category_order.find? (matches_category text) = some SkillCategory.reminder := by
      simp [category_order, matches_category, category_keywords, h1, h2, h3, h4, h5, h6, h7, h8]
    rw [hf]; simp [check_skills, run_category, h1, h2, h3, h4, h5, h6, h7, h8]
  | false =>
  cases h9 : clear_keywords.any (fun w => pyIn w (pyLower text)) with
  | true =>
    have hf : category_order.find? (matches_category text) = some SkillCategory.clearHistory := by
      simp [category_order, matches_category, category_keywords,
        h1, h2, h3, h4, h5, h6, h7, h8, h9]
    rw [hf]; simp [check_skills, run_category, h1, h2, h3, h4, h5, h6, h7, h8, h9]
  | false =>
    have hf : category_order.find? (matches_category text) = none := by
      simp [category_order, matches_category, category_keywords,
        h1, h2, h3, h4, h5, h6, h7, h8, h9]
    rw [hf]; simp [check_skills, h1, h2, h3, h4, h5, h6, h7, h8, h9]

/-- C2: the skill matcher is ordered, first-match-wins dispatch over the
fixed category priority list (time/date, weather, system-control,
web-search, calculation, entertainment, note, reminder, clear-history);
each category test is the case-insensitive substring membership check of
the text against the category's fixed keyword set, the result is the
handler of the first matching category, and with no match the result is
`{success: false, should_continue: true}` with the history untouched. -/
theorem check_skills_first_match_wins (o : Oracle) (cfg : AssistantCfg)
    (ctx : AssistantContext) (hist : List ConversationMessage) (text : String) :
    check_skills o cfg ctx hist text =
      (match category_order.find? (matches_category text) with
       | some c => run_category c o cfg ctx hist text
       | none => (⟨false, "", [], true⟩, hist)) :=
  check_skills_eq_dispatch o cfg ctx hist text

/-! ### Helper lemmas on the composition stage -/

theorem process_command_projections (o : Oracle) (cfg : AssistantCfg)
    (ctx : AssistantContext) (client : Option MistralClient)
    (hist : List ConversationMessage) (text : String) :
    (process_command o cfg ctx client hist text).reply =
      (process_command_core o cfg ctx client hist text).reply
    ∧ (process_command o cfg ctx client hist text).metadata =
      (process_command_core o cfg ctx client hist text).metadata
    ∧ (process_command o cfg ctx client hist text).modelCalled =
      (process_command_core o cfg ctx client hist text).modelCalled := by
  by_cases h : (process_command_core o cfg ctx client hist text).history.length > cfg.maxHistory
  · simp [process_command, h]
  · simp [process_command, h]

theorem compose_stage_skill_terminal (o : Oracle) (ctx : AssistantContext)
    (client : Option MistralClient) (sr : SkillResult)
    (hist : List ConversationMessage) (text : String)
    (h1 : sr.success = true) (h2 : sr.should_continue = false) :
    compose_stage o ctx client sr hist text =
      ⟨client, sr.response,
        [("source", MetaVal.str "skill"), ("skill_data", MetaVal.dict sr.data)],
        false, false⟩ := by
  unfold compose_stage
  simp [h1, h2]

theorem compose_stage_hybrid (o : Oracle) (ctx : AssistantContext)
    (mc : MistralClient) (sr : SkillResult)
    (hist : List ConversationMessage) (text : String)
    (hav : is_available mc = true) (hs : sr.success = true)
    (hc : sr.should_continue = true) :
    compose_stage o ctx (some mc) sr hist text =
      ⟨some (generate_response mc text hist (some ctx) o.net).state,
        sr.response ++ "\n\n" ++ (generate_response mc text hist (some ctx) o.net).reply,
        assocSet (generate_response mc text hist (some ctx) o.net).metadata "source"
          (MetaVal.str "hybrid"),
        true, (generate_response mc text hist (some ctx) o.net).netCalled⟩ := by
  unfold compose_stage
  simp [hav, hs, hc]

theorem compose_stage_ai (o : Oracle) (ctx : AssistantContext)
    (mc : MistralClient) (sr : SkillResult)
    (hist : List ConversationMessage) (text : String)
    (hav : is_available mc = true) (hs : sr.success = false) :
    compose_stage o ctx (some mc) sr hist text =
      ⟨some (generate_response mc text hist (some ctx) o.net).state,
        (generate_response mc text hist (some ctx) o.net).reply,
        assocSet (generate_response mc text hist (some ctx) o.net).metadata "source"
          (MetaVal.str "ai"),
        true, (generate_response mc text hist (some ctx) o.net).netCalled⟩ := by
  unfold compose_stage
  simp [hav, hs]

theorem compose_stage_no_model_skill (o : Oracle) (ctx : AssistantContext)
    (client : Option MistralClient) (sr : SkillResult)
    (hist : List ConversationMessage) (text : String)
    (hno : match client with | some mc => is_available mc = false | none => True)
    (hs : sr.success = true) (hc : sr.should_continue = true) :
    compose_stage o ctx client sr hist text =
      ⟨client, sr.response,
        [("source", MetaVal.str "skill"), ("skill_data", MetaVal.dict sr.data)],
        false, false⟩ := by
  unfold compose_stage
  cases client with
  | none => simp [hs, hc]
  | some mc => simp [hs, hc, hno]

theorem compose_stage_fallback (o : Oracle) (ctx : AssistantContext)
    (client : Option MistralClient) (sr : SkillResult)
    (hist : List ConversationMessage) (text : String)
    (hno : match client with | some mc => is_available mc = false | none => True)
    (hs : sr.success = false) :
    compose_stage o ctx client sr hist text =
      ⟨client, get_fallback_response o ctx text,
        [("source", MetaVal.str "fallback")], false, false⟩ := by
  unfold compose_stage
  cases client with
  | none => simp [hs]
  | some mc => simp [hs, hno]

theorem assocLookup_source_head (v : MetaVal) (d : Metadata) :
    assocLookup "source" (("source", v) :: d) = some v := by
  simp [assocLookup]

/-- C1: the orchestrator composes every reply per the decision table: a
successful terminal skill result is returned as-is with source `skill` and
no model call; otherwise, with the model available, the model is called and
the reply is skill response, separator and model reply (source `hybrid`)
when the skill succeeded, else the model reply alone (source `ai`);
otherwise the reply is the skill response (source `skill`) when the skill
succeeded, else the locally computed fallback string (source `fallback`),
again without calling the model client. -/
theorem process_command_decision_table (o : Oracle) (cfg : AssistantCfg)
    (ctx : AssistantContext) (client : Option MistralClient)
    (hist : List ConversationMessage) (text : String) :
    ((check_skills o cfg ctx (hist ++ [⟨"user", text, o.tsUser⟩]) text).1.success = true →
     (check_skills o cfg ctx (hist ++ [⟨"user", text, o.tsUser⟩]) text).1.should_continue = false →
      (process_command o cfg ctx client hist text).reply =
        (check_skills o cfg ctx (hist ++ [⟨"user", text, o.tsUser⟩]) text).1.response
      ∧ assocLookup "source" (process_command o cfg ctx client hist text).metadata =
          some (MetaVal.str "skill")
      ∧ (process_command o cfg ctx client hist text).modelCalled = false)
    ∧ (∀ mc : MistralClient, client = some mc → is_available mc = true →
       ((check_skills o cfg ctx (hist ++ [⟨"user", text, o.tsUser⟩]) text).1.success = false
        ∨ (check_skills o cfg ctx (hist ++ [⟨"user", text, o.tsUser⟩]) text).1.should_continue = true) →
      (process_command o cfg ctx client hist text).modelCalled = true
      ∧ ((check_skills o cfg ctx (hist ++ [⟨"user", text, o.tsUser⟩]) text).1.success = true →
          (process_command o cfg ctx client hist text).reply =
            (check_skills o cfg ctx (hist ++ [⟨"user", text, o.tsUser⟩]) text).1.response
              ++ "\n\n" ++
              (generate_response mc text
                (check_skills o cfg ctx (hist ++ [⟨"user", text, o.tsUser⟩]) text).2
                (some ctx) o.net).reply
          ∧ assocLookup "source" (process_command o cfg ctx client hist text).metadata =
              some (MetaVal.str "hybrid"))
      ∧ ((check_skills o cfg ctx (hist ++ [⟨"user", text, o.tsUser⟩]) text).1.success = false →
          (process_command o cfg ctx client hist text).reply =
            (generate_response mc text
              (check_skills o cfg ctx (hist ++ [⟨"user", text, o.tsUser⟩]) text).2
              (some ctx) o.net).reply
          ∧ assocLookup "source" (process_command o cfg ctx client hist text).metadata =
              some (MetaVal.str "ai")))
    ∧ ((match client with | some mc => is_available mc = false | none => True) →
       ((check_skills o cfg ctx (hist ++ [⟨"user", text, o.tsUser⟩]) text).1.success = false
        ∨ (check_skills o cfg ctx (hist ++ [⟨"user", text, o.tsUser⟩]) text).1.should_continue = true) →
      (process_command o cfg ctx client hist text).modelCalled = false
      ∧ ((check_skills o cfg ctx (hist ++ [⟨"user", text, o.tsUser⟩]) text).1.success = true →
          (process_command o cfg ctx client hist text).reply =
            (check_skills o cfg ctx (hist ++ [⟨"user", text, o.tsUser⟩]) text).1.response
          ∧ assocLookup "source" (process_command o cfg ctx client hist text).metadata =
              some (MetaVal.str "skill"))
      ∧ ((check_skills o cfg ctx (hist ++ [⟨"user", text, o.tsUser⟩]) text).1.success = false →
          (process_command o cfg ctx client hist text).reply =
            get_fallback_response o ctx text
          ∧ assocLookup "source" (process_command o cfg ctx client hist text).metadata =
              some (MetaVal.str "fallback"))) := by
  obtain ⟨hr, hm, hmcd⟩ := process_command_projections o cfg ctx client hist text
  have hr2 : (process_command_core o cfg ctx client hist text).reply =
      (compose_stage o ctx client
        (check_skills o cfg ctx (hist ++ [⟨"user", text, o.tsUser⟩]) text).1
        (check_skills o cfg ctx (hist ++ [⟨"user", text, o.tsUser⟩]) text).2 text).response := rfl
  have hm2 : (process_command_core o cfg ctx client hist text).metadata =
      (compose_stage o ctx client
        (check_skills o cfg ctx (hist ++ [⟨"user", text, o.tsUser⟩]) text).1
        (check_skills o cfg ctx (hist ++ [⟨"user", text, o.tsUser⟩]) text).2 text).metadata := rfl
  have hmcd2 : (process_command_core o cfg ctx client hist text).modelCalled =
      (compose_stage o ctx client
        (check_skills o cfg ctx (hist ++ [⟨"user", text, o.tsUser⟩]) text).1
        (check_skills o cfg ctx (hist ++ [⟨"user", text, o.tsUser⟩]) text).2 text).modelCalled := rfl
  refine ⟨?_, ?_, ?_⟩
  · intro h1 h2
    have e := compose_stage_skill_terminal o ctx client
      (check_skills o cfg ctx (hist ++ [⟨"user", text, o.tsUser⟩]) text).1
      (check_skills o cfg ctx (hist ++ [⟨"user", text, o.tsUser⟩]) text).2 text h1 h2
    refine ⟨?_, ?_, ?_⟩
    · rw [hr, hr2, e]
    · rw [hm, hm2, e]; exact assocLookup_source_head _ _
    · rw [hmcd, hmcd2, e]
  · intro mc hmc hav hns
    subst hmc
    cases hs : (check_skills o cfg ctx (hist ++ [⟨"user", text, o.tsUser⟩]) text).1.success with
    | true =>
      have hc : (check_skills o cfg ctx
          (hist ++ [⟨"user", text, o.tsUser⟩]) text).1.should_continue = true := by
        rcases hns with h | h
        · rw [hs] at h; cases h
        · exact h
      have e := compose_stage_hybrid o ctx mc
        (check_skills o cfg ctx (hist ++ [⟨"user", text, o.tsUser⟩]) text).1
        (check_skills o cfg ctx (hist ++ [⟨"user", text, o.tsUser⟩]) text).2 text hav hs hc
      refine ⟨?_, fun _ => ⟨?_, ?_⟩, fun hf => ?_⟩
      · rw [hmcd, hmcd2, e]
      · rw [hr, hr2, e]
      · rw [hm, hm2, e]; exact assocLookup_assocSet_self _ _ _
      · simp at hf
    | false =>
      have e := compose_stage_ai o ctx mc
        (check_skills o cfg ctx (hist ++ [⟨"user", text, o.tsUser⟩]) text).1
        (check_skills o cfg ctx (hist ++ [⟨"user", text, o.tsUser⟩]) text).2 text hav hs
      refine ⟨?_, fun ht => ?_, fun _ => ⟨?_, ?_⟩⟩
      · rw [hmcd, hmcd2, e]
      · simp at ht
      · rw [hr, hr2, e]
      · rw [hm, hm2, e]; exact assocLookup_assocSet_self _ _ _
  · intro hno hns
    cases hs : (check_skills o cfg ctx (hist ++ [⟨"user", text, o.tsUser⟩]) text).1.success with
    | true =>
      have hc : (check_skills o cfg ctx
          (hist ++ [⟨"user", text, o.tsUser⟩]) text).1.should_continue = true := by
        rcases hns with h | h
        · rw [hs] at h; cases h
        · exact h
      have e := compose_stage_no_model_skill o ctx client
        (check_skills o cfg ctx (hist ++ [⟨"user", text, o.tsUser⟩]) text).1
        (check_skills o cfg ctx (hist ++ [⟨"user", text, o.tsUser⟩]) text).2 text hno hs hc
      refine ⟨?_, fun _ => ⟨?_, ?_⟩, fun hf => ?_⟩
      · rw [hmcd, hmcd2, e]
      · rw [hr, hr2, e]
      · rw [hm, hm2, e]; exact assocLookup_source_head _ _
      · simp at hf
    | false =>
      have e := compose_stage_fallback o ctx client
        (check_skills o cfg ctx (hist ++ [⟨"user", text, o.tsUser⟩]) text).1
        (check_skills o cfg ctx (hist ++ [⟨"user", text, o.tsUser⟩]) text).2 text hno hs
      refine ⟨?_, fun ht => ?_, fun _ => ⟨?_, ?_⟩⟩
      · rw [hmcd, hmcd2, e]
      · simp at ht
      · rw [hr, hr2, e]
      · rw [hm, hm2, e]; exact assocLookup_source_head _ _

/-- C1 witness: the command "сколько времени" hits the terminal time skill
with no model client; the reply is the skill response with source `skill`
and no model call. -/
theorem process_command_decision_table_witness :
    ((check_skills ({} : Oracle) ({} : AssistantCfg) ({} : AssistantContext)
        ([] ++ [⟨"user", "сколько времени", ({} : Oracle).tsUser⟩]) "сколько времени").1.success = true
      ∧ (check_skills ({} : Oracle) ({} : AssistantCfg) ({} : AssistantContext)
        ([] ++ [⟨"user", "сколько времени", ({} : Oracle).tsUser⟩]) "сколько времени").1.should_continue = false)
    ∧ ((process_command ({} : Oracle) ({} : AssistantCfg) ({} : AssistantContext)
          none [] "сколько времени").reply =
        (check_skills ({} : Oracle) ({} : AssistantCfg) ({} : AssistantContext)
          ([] ++ [⟨"user", "сколько времени", ({} : Oracle).tsUser⟩]) "сколько времени").1.response
      ∧ assocLookup "source" (process_command ({} : Oracle) ({} : AssistantCfg)
          ({} : AssistantContext) none [] "сколько времени").metadata =
          some (MetaVal.str "skill")
      ∧ (process_command ({} : Oracle) ({} : AssistantCfg) ({} : AssistantContext)
          none [] "сколько времени").modelCalled = false) :=
  ⟨⟨by decide, by decide⟩,
   (process_command_decision_table {} {} {} none [] "сколько времени").1
     (by decide) (by decide)⟩

/-- C6: after any command-processing cycle the conversation history length
never exceeds the configured maximum; the kept history is a suffix of the
untruncated history (the newest entries are kept, the oldest dropped), and
when the bound was not exceeded nothing is dropped. -/
theorem conversation_history_bound (o : Oracle) (cfg : AssistantCfg)
    (ctx : AssistantContext) (client : Option MistralClient)
    (hist : List ConversationMessage) (text : String)
    (hmax : 0 < cfg.maxHistory) :
    (process_command o cfg ctx client hist text).history.length ≤ cfg.maxHistory
    ∧ (process_command o cfg ctx client hist text).history <:+
        (process_command_core o cfg ctx client hist text).history
    ∧ ((process_command_core o cfg ctx client hist text).history.length ≤ cfg.maxHistory →
        (process_command o cfg ctx client hist text).history =
          (process_command_core o cfg ctx client hist text).history) := by
  have hk : cfg.maxHistory ≠ 0 := by omega
  by_cases h : (process_command_core o cfg ctx client hist text).history.length > cfg.maxHistory
  · have e : (process_command o cfg ctx client hist text).history =
        pySliceLast (process_command_core o cfg ctx client hist text).history cfg.maxHistory := by
      simp [process_command, h]
    refine ⟨?_, ?_, ?_⟩
    · rw [e, pySliceLast, if_neg hk, List.length_drop]
      omega
    · rw [e, pySliceLast, if_neg hk]
      exact List.drop_suffix _ _
    · intro hle
      exact absurd hle (by omega)
  · have e : process_command o cfg ctx client hist text =
        process_command_core o cfg ctx client hist text := by
      simp [process_command, h]
    refine ⟨?_, ?_, ?_⟩
    · rw [e]; omega
    · rw [e]
    · intro _; rw [e]

/-- C6 witness: a concrete cycle under the default bound of 100. -/
theorem conversation_history_bound_witness :
    (0 < ({} : AssistantCfg).maxHistory)
    ∧ ((process_command ({} : Oracle) ({} : AssistantCfg) ({} : AssistantContext)
          none [] "привет").history.length ≤ ({} : AssistantCfg).maxHistory
      ∧ (process_command ({} : Oracle) ({} : AssistantCfg) ({} : AssistantContext)
          none [] "привет").history <:+
          (process_command_core ({} : Oracle) ({} : AssistantCfg) ({} : AssistantContext)
            none [] "привет").history
      ∧ ((process_command_core ({} : Oracle) ({} : AssistantCfg) ({} : AssistantContext)
            none [] "привет").history.length ≤ ({} : AssistantCfg).maxHistory →
          (process_command ({} : Oracle) ({} : AssistantCfg) ({} : AssistantContext)
            none [] "привет").history =
            (process_command_core ({} : Oracle) ({} : AssistantCfg) ({} : AssistantContext)
              none [] "привет").history)) :=
  ⟨by decide,
   conversation_history_bound {} {} {} none [] "привет" (by decide)⟩

/-- C10: a command dispatched to the clear-history category clears the
history after the user message was already appended (erasing it too), and
the cycle ends with the history holding exactly the single assistant
acknowledgement of the clearing. -/
theorem clear_history_cycle (o : Oracle) (cfg : AssistantCfg)
    (ctx : AssistantContext) (client : Option MistralClient)
    (hist : List ConversationMessage) (text : String)
    (hmax : 0 < cfg.maxHistory)
    (hdisp : category_order.find? (matches_category text) = some SkillCategory.clearHistory) :
    (process_command o cfg ctx client hist text).history =
      [⟨"assistant", "История диалога очищена. Начинаем новую беседу!", o.tsAssistant⟩]
    ∧ (process_command o cfg ctx client hist text).reply =
      "История диалога очищена. Начинаем новую беседу!" := by
  have hcs2 : check_skills o cfg ctx (hist ++ [⟨"user", text, o.tsUser⟩]) text =
      (clear_history_result, []) := by
    rw [check_skills_eq_dispatch, hdisp]
    rfl
  have hcomp := compose_stage_skill_terminal o ctx client clear_history_result [] text rfl rfl
  have e1 : process_command_core o cfg ctx client hist text =
      ⟨[⟨"assistant", clear_history_result.response, o.tsAssistant⟩], client,
        clear_history_result.response,
        [("source", MetaVal.str "skill"),
         ("skill_data", MetaVal.dict clear_history_result.data)],
        false, false⟩ := by
    simp only [process_command_core]
    rw [hcs2]
    simp [hcomp]
  have hnot : ¬ ((process_command_core o cfg ctx client hist text).history.length >
      cfg.maxHistory) := by
    rw [e1]
    simp only [List.length_cons, List.length_nil]
    omega
  have e2 : process_command o cfg ctx client hist text =
      process_command_core o cfg ctx client hist text := by
    simp [process_command, hnot]
  refine ⟨?_, ?_⟩
  · rw [e2, e1]; simp [clear_history_result]
  · rw [e2, e1]; simp [clear_history_result]

/-- C10 witness: the concrete command "очисти историю" leaves exactly the
assistant acknowledgement in the history. -/
theorem clear_history_cycle_witness :
    (0 < ({} : AssistantCfg).maxHistory
      ∧ category_order.find? (matches_category "очисти историю") =
          some SkillCategory.clearHistory)
    ∧ ((process_command ({} : Oracle) ({} : AssistantCfg) ({} : AssistantContext)
          none [⟨"user", "привет", ""⟩] "очисти историю").history =
        [⟨"assistant", "История диалога очищена. Начинаем новую беседу!",
          ({} : Oracle).tsAssistant⟩]
      ∧ (process_command ({} : Oracle) ({} : AssistantCfg) ({} : AssistantContext)
          none [⟨"user", "привет", ""⟩] "очисти историю").reply =
        "История диалога очищена. Начинаем новую беседу!") :=
  ⟨⟨by decide, by decide⟩,
   clear_history_cycle {} {} {} none [⟨"user", "привет", ""⟩] "очисти историю"
     (by decide) (by decide)⟩

/-- C3 counterexample: the command "посчитай 2,5" is a calculation-category
input whose residual after keyword stripping, "2,5", contains a character
outside the allow-list (the comma), yet the skill does not return the
refusal message: the comma is normalised to a dot before validation and the
expression is evaluated. -/
theorem skill_calculation_invalid_chars_counterexample :
    category_order.find? (matches_category "посчитай 2,5") = some SkillCategory.calculation
    ∧ (calc_residual "посчитай 2,5").toList.any (fun c => !(calcAllowed c)) = true
    ∧ (skill_calculation { evalRes := EvalOutcome.ok "2.5" } "посчитай 2,5").response ≠
        calc_refusal_message :=
  ⟨by decide, by decide, by decide⟩

/-- C3 (amended): for every calculation input whose residual expression,
after stripping the calculation keywords and normalising the
multiplication glyphs and the decimal comma, is non-empty and still
contains a character outside `0123456789+-*/.() `, the skill returns the
fixed refusal message with `success = true` and `should_continue = false`. -/
theorem skill_calculation_invalid_chars (o : Oracle) (text : String)
    (_hcat : category_order.find? (matches_category text) = some SkillCategory.calculation)
    (hne : calc_residual text ≠ "")
    (hbad : (calc_normalized (calc_residual text)).toList.any (fun c => !(calcAllowed c)) = true) :
    skill_calculation o text =
      ⟨true, calc_refusal_message,
        [("type", MetaVal.str "calculation"), ("error", MetaVal.str "invalid_chars")],
        false⟩ := by
  have h2 : (calc_normalized (calc_residual text)).toList.all calcAllowed = false := by
    rcases List.any_eq_true.mp hbad with ⟨c, hc, hnc⟩
    cases hall : (calc_normalized (calc_residual text)).toList.all calcAllowed
    · rfl
    · have := List.all_eq_true.mp hall c hc
      simp [this] at hnc
  simp only [skill_calculation]
  rw [if_neg hne, h2]
  simp

/-- C3 witness: the command "посчитай 2%2" keeps the invalid percent sign
after normalisation and receives the refusal message. -/
theorem skill_calculation_invalid_chars_witness :
    (category_order.find? (matches_category "посчитай 2%2") = some SkillCategory.calculation
      ∧ calc_residual "посчитай 2%2" ≠ ""
      ∧ (calc_normalized (calc_residual "посчитай 2%2")).toList.any
          (fun c => !(calcAllowed c)) = true)
    ∧ skill_calculation ({} : Oracle) "посчитай 2%2" =
        ⟨true, calc_refusal_message,
          [("type", MetaVal.str "calculation"), ("error", MetaVal.str "invalid_chars")],
          false⟩ :=
  ⟨⟨by decide, by decide, by decide⟩,
   skill_calculation_invalid_chars {} "посчитай 2%2" (by decide) (by decide) (by decide)⟩
